import Mathlib

/-!
Verification development for the KPI dashboard repository
(`metrics.py`, `app.py`).

The engine manipulates pandas DataFrames.  We shallowly embed the
fragment of pandas that the repository uses:

* a cell of a DataFrame is a `Cell` : text, a finite float (modelled as
  a rational number), a calendar date (`datetime64` after `load_kpi`
  has parsed the date columns), the missing marker `NaN`/`NaT`, or one
  of the two IEEE infinities that float division by zero produces;
* a DataFrame is a list of column names together with a list of rows,
  a row being a function from column names to cells (absent entries
  read as `NaN`);
* fallible operations (indexing a missing column raises `KeyError` in
  Python) return `Except PdError`.

Numeric text parsing is not modelled: in the application every numeric
column arrives from `read_csv` already numeric and every date column is
pre-parsed by `load_kpi`'s `parse_dates`, so `pd.to_numeric(...,
errors="coerce")` maps non-numeric cells to `NaN` and
`pd.to_datetime(..., errors="coerce")` maps non-date cells to `NaT`.
-/

/-- A calendar date (year, month, day), as held by a parsed
`datetime64` column. -/
structure Date where
  y : ℕ
  m : ℕ
  d : ℕ
deriving DecidableEq, Repr

/-- Day ordinal of a date (days-from-civil, proleptic Gregorian).  Used
for date differences (`.dt.days`) and date comparisons. -/
def Date.ord (dt : Date) : ℤ :=
  let yy : ℤ := if dt.m ≤ 2 then (dt.y : ℤ) - 1 else (dt.y : ℤ)
  let era : ℤ := (if 0 ≤ yy then yy else yy - 399) / 400
  let yoe : ℤ := yy - era * 400
  let mp : ℤ := ((dt.m : ℤ) + 9) % 12
  let doy : ℤ := (153 * mp + 2) / 5 + (dt.d : ℤ) - 1
  let doe : ℤ := yoe * 365 + yoe / 4 - yoe / 100 + doy
  era * 146097 + doe - 719468

/-- A finite float value, represented as an exact rational number: a
numerator/denominator pair that every arithmetic operation keeps in
lowest terms with a positive denominator (so equal values have equal
representations). -/
structure Q where
  n : ℤ
  d : ℤ
deriving DecidableEq, Repr

namespace Q

/-- Normalise to lowest terms with a positive denominator. -/
def norm (a : Q) : Q :=
  let n := if a.d < 0 then -a.n else a.n
  let d := if a.d < 0 then -a.d else a.d
  let g : ℤ := (Int.gcd n d : ℤ)
  if g = 0 then ⟨0, 1⟩ else ⟨n / g, d / g⟩

/-- Rational addition. -/
def add (a b : Q) : Q := norm ⟨a.n * b.d + b.n * a.d, a.d * b.d⟩

/-- Rational subtraction. -/
def sub (a b : Q) : Q := norm ⟨a.n * b.d - b.n * a.d, a.d * b.d⟩

/-- Rational multiplication. -/
def mul (a b : Q) : Q := norm ⟨a.n * b.n, a.d * b.d⟩

/-- Rational division (call sites guard a zero divisor first). -/
def div (a b : Q) : Q := norm ⟨a.n * b.d, a.d * b.n⟩

/-- The rational of an integer. -/
def int (k : ℤ) : Q := ⟨k, 1⟩

/-- Cross-multiplication equality (sound for positive
denominators). -/
def beq (a b : Q) : Bool := a.n * b.d == b.n * a.d

end Q

/-- One cell of a DataFrame. -/
inductive Cell where
  | str : String → Cell
  | num : Q → Cell
  | date : Date → Cell
  | nan : Cell
  | pinf : Cell
  | ninf : Cell
deriving DecidableEq, Repr

namespace Cell

/-- The cell of an integer value. -/
def int (k : ℤ) : Cell := num (Q.int k)

/-- Boolean equality test on cells (used inside filters and lookups). -/
def beq : Cell → Cell → Bool
  | str a, str b => a == b
  | num a, num b => a.beq b
  | date a, date b => a == b
  | nan, nan => true
  | pinf, pinf => true
  | ninf, ninf => true
  | _, _ => false

/-- Cell is the missing marker (`NaN`/`NaT`). -/
def isNan : Cell → Bool
  | nan => true
  | _ => false

/-- Cell is a parsed date or `NaT` (member of a `datetime64` column). -/
def isDateLike : Cell → Bool
  | date _ => true
  | nan => true
  | _ => false

/-- Elementwise `pd.to_numeric(..., errors="coerce")`: numbers pass
through, everything else becomes `NaN`. -/
def toNumeric : Cell → Cell
  | num q => num q
  | pinf => pinf
  | ninf => ninf
  | _ => nan

/-- Elementwise `pd.to_datetime(..., errors="coerce")` on cells that
`load_kpi` produces: dates pass through, everything else becomes
`NaT`. -/
def toDatetime : Cell → Cell
  | date dt => date dt
  | _ => nan

/-- Float addition with `NaN`/infinity propagation. -/
def add : Cell → Cell → Cell
  | num a, num b => num (a.add b)
  | num _, pinf => pinf
  | pinf, num _ => pinf
  | pinf, pinf => pinf
  | num _, ninf => ninf
  | ninf, num _ => ninf
  | ninf, ninf => ninf
  | _, _ => nan

/-- Float subtraction with `NaN`/infinity propagation. -/
def sub : Cell → Cell → Cell
  | num a, num b => num (a.sub b)
  | num _, pinf => ninf
  | pinf, num _ => pinf
  | num _, ninf => pinf
  | ninf, num _ => ninf
  | pinf, ninf => pinf
  | ninf, pinf => ninf
  | _, _ => nan

/-- Float multiplication with `NaN`/infinity propagation. -/
def mul : Cell → Cell → Cell
  | num a, num b => num (a.mul b)
  | num a, pinf => if 0 < a.n then pinf else if a.n < 0 then ninf else nan
  | pinf, num b => if 0 < b.n then pinf else if b.n < 0 then ninf else nan
  | num a, ninf => if 0 < a.n then ninf else if a.n < 0 then pinf else nan
  | ninf, num b => if 0 < b.n then ninf else if b.n < 0 then pinf else nan
  | pinf, pinf => pinf
  | ninf, ninf => pinf
  | pinf, ninf => ninf
  | ninf, pinf => ninf
  | _, _ => nan

/-- Float division: division by zero yields a signed infinity (or `NaN`
for `0/0`), exactly as numpy float division does. -/
def div : Cell → Cell → Cell
  | num a, num b =>
      if b.n = 0 then (if 0 < a.n then pinf else if a.n < 0 then ninf else nan)
      else num (a.div b)
  | pinf, num b => if 0 ≤ b.n then pinf else ninf
  | ninf, num b => if 0 ≤ b.n then ninf else pinf
  | num _, pinf => num (Q.int 0)
  | num _, ninf => num (Q.int 0)
  | _, _ => nan

/-- The comparison `x > 0` as pandas evaluates it (`NaN > 0` is false,
`inf > 0` is true). -/
def gt0 : Cell → Bool
  | num a => decide (0 < a.n)
  | pinf => true
  | _ => false

/-- Series sum with `skipna=True` (the pandas default): missing values
are skipped and an empty sum is `0`. -/
def csum (l : List Cell) : Cell :=
  (l.filter (fun c => !c.isNan)).foldl add (int 0)

/-- Series mean with `skipna=True`: missing values are dropped; the
mean of no values is `NaN`.  An infinite value is *not* dropped and
makes the mean infinite. -/
def cmean (l : List Cell) : Cell :=
  let v := l.filter (fun c => !c.isNan)
  if v.isEmpty then nan else div (v.foldl add (int 0)) (int (v.length : ℤ))

end Cell

/-- Rendering of a month as `to_period("M").astype(str)` renders it:
`"YYYY-MM"` for a date, and the string `"NaT"` for a missing date. -/
def monthString (y m : ℕ) : String :=
  toString y ++ "-" ++ (if m < 10 then "0" ++ toString m else toString m)

/-- The month key `pd.to_datetime(col).dt.to_period("M").astype(str)`
derives from one cell. -/
def month_str (c : Cell) : Cell :=
  match c.toDatetime with
  | Cell.date dt => Cell.str (monthString dt.y dt.m)
  | _ => Cell.str "NaT"

/-- Errors surfaced by the embedded pandas fragment. -/
inductive PdError where
  | keyError : String → PdError
  | unknownKpi : String → List String → PdError
deriving DecidableEq, Repr

/-- A DataFrame row: a total assignment of cells to column names
(columns outside the frame read as `NaN`). -/
abbrev Row := String → Cell

/-- A DataFrame: column names plus rows. -/
structure DFrame where
  cols : List String
  rows : List Row

/-- The column list after an assignment to column `c`: unchanged when
`c` is already a column, extended by `c` otherwise. -/
def addCol (cols : List String) (c : String) : List String :=
  if cols.contains c then cols else cols ++ [c]

namespace DFrame

/-- Column membership test (`c in df.columns`). -/
def hasCol (df : DFrame) (c : String) : Bool := df.cols.contains c

/-- Column assignment `df[c] = <rowwise expression>`: appends the
column name if new and writes the computed cell into every row. -/
def setColWith (df : DFrame) (c : String) (f : Row → Cell) : DFrame :=
  { cols := addCol df.cols c
    rows := df.rows.map (fun r => fun c' => if c' = c then f r else r c') }

/-- The cells of one column. -/
def colCells (df : DFrame) (c : String) : List Cell := df.rows.map (fun r => r c)

/-- `df[c] = pd.to_numeric(df[c], errors="coerce")`: raises `KeyError`
when the column is absent. -/
def toNumericCol (df : DFrame) (c : String) : Except PdError DFrame :=
  if df.cols.contains c then .ok (df.setColWith c (fun r => (r c).toNumeric))
  else .error (.keyError c)

/-- `df[c] = pd.to_numeric(df.get(c), errors="coerce")`: an absent
column becomes a column of `NaN` (broadcast of the scalar
`to_numeric(None)`) instead of raising. -/
def toNumericColGet (df : DFrame) (c : String) : DFrame :=
  df.setColWith c (fun r =>
    if df.cols.contains c then (r c).toNumeric else Cell.nan)

/-- `df[c] = pd.to_numeric(df[c])` applied only when the column exists
(`if c in df.columns:` guard in the source); a frame without the
column passes through unchanged. -/
def toNumericColIfPresent (df : DFrame) (c : String) : DFrame :=
  { cols := df.cols
    rows := df.rows.map (fun r => fun c' =>
      if c' = c ∧ df.cols.contains c then (r c).toNumeric else r c') }

/-- Column projection `df[cols]`: raises `KeyError` on the first
requested column that is absent. -/
def select (df : DFrame) (cs : List String) : Except PdError DFrame :=
  match cs.find? (fun c => !df.hasCol c) with
  | some c => .error (.keyError c)
  | none => .ok { cols := cs
                  rows := df.rows.map (fun r => fun c' => if cs.contains c' then r c' else Cell.nan) }

end DFrame

/-- Distinct elements of a list, first occurrence first (the group keys
of a `groupby`; pandas additionally sorts them, an ordering none of the
statements below depend on). -/
def firstDedup : List Cell → List Cell
  | [] => []
  | x :: xs => x :: (firstDedup xs).filter (fun y => !y.beq x)

/-- One named aggregation `out=(src, fn)` of a `groupby(...).agg`. -/
structure AggSpec where
  outName : String
  src : String
  fn : List Cell → Cell

/-- The rows of a group: the rows whose key column equals `k`. -/
def groupRows (rows : List Row) (key : String) (k : Cell) : List Row :=
  rows.filter (fun r => (r key).beq k)

/-- The rows that enter a `groupby`: rows whose key is missing are
dropped (`dropna=True`, the default). -/
def dropnaRows (rows : List Row) (key : String) : List Row :=
  rows.filter (fun r => !(r key).isNan)

/-- The distinct group keys of a `groupby`. -/
def groupKeys (rows : List Row) (key : String) : List Cell :=
  firstDedup ((dropnaRows rows key).map (fun r => r key))

/-- One output row of a `groupby(...).agg(...)`: the group key plus
each aggregation applied to its group's source cells. -/
def groupbyAggRow (rows' : List Row) (key : String) (aggs : List AggSpec)
    (k : Cell) : Row :=
  fun c =>
    if c = key then k
    else match aggs.find? (fun a => a.outName = c) with
      | some a => a.fn ((groupRows rows' key k).map (fun r => r a.src))
      | none => Cell.nan

/-- The grouped-aggregation frame itself (the success case of
`groupby(key, as_index=False).agg(...)`): one output row per distinct
key. -/
def groupbyAggCore (df : DFrame) (key : String) (aggs : List AggSpec) : DFrame :=
  { cols := key :: aggs.map (fun a => a.outName)
    rows := (groupKeys df.rows key).map
      (groupbyAggRow (dropnaRows df.rows key) key aggs) }

/-- `df.groupby(key, as_index=False).agg(out₁=(src₁,fn₁), ...)`: a
missing key or aggregation-source column raises `KeyError`. -/
def DFrame.groupbyAgg (df : DFrame) (key : String) (aggs : List AggSpec) :
    Except PdError DFrame :=
  if !df.cols.contains key then .error (.keyError key)
  else match aggs.find? (fun a => !df.cols.contains a.src) with
  | some a => .error (.keyError a.src)
  | none => .ok (groupbyAggCore df key aggs)

/-- Projections of an `Except`-valued DataFrame computation, for
stating concrete evaluations. -/
def resRows (e : Except PdError DFrame) : List Row :=
  match e with
  | .ok df => df.rows
  | .error _ => []

/-- Column list of an `Except`-valued DataFrame computation. -/
def resCols (e : Except PdError DFrame) : List String :=
  match e with
  | .ok df => df.cols
  | .error _ => []

/-- Did the computation succeed (Python: did not raise)? -/
def isOk (e : Except PdError DFrame) : Bool :=
  match e with
  | .ok _ => true
  | .error _ => false

/-- Cell of row `i`, column `c` of a row list (`NaN` when out of
range). -/
def rowCellAt (rs : List Row) (i : ℕ) (c : String) : Cell :=
  (rs.getD i (fun _ => Cell.nan)) c

/-!
The per-indicator aggregators of `metrics.py`, one definition per
`@register_kpi` function, in registration order.
-/

/-- The `compute_apps` aggregator (`metrics.py`, `@register_kpi("apps")`):
coerce the three numeric columns via `df.get` (an absent column becomes
all-`NaN`), derive `time_saved = (time_before_hrs - time_after_hrs) *
frequency_per_month`, and sum it per `month`. -/
def compute_apps (df : DFrame) : Except PdError DFrame :=
  let df2 := ((df.toNumericColGet "time_before_hrs").toNumericColGet
      "time_after_hrs").toNumericColGet "frequency_per_month"
  let df2 := df2.setColWith "time_saved" (fun r =>
    Cell.mul (Cell.sub (r "time_before_hrs") (r "time_after_hrs"))
      (r "frequency_per_month"))
  df2.groupbyAgg "month" [⟨"total_saved", "time_saved", Cell.csum⟩]

/-- Numeric sanitation loop of `compute_info_speed`: `if c not in
df2.columns: df2[c] = pd.NA` then `df2[c] = pd.to_numeric(df2[c],
errors="coerce")`.  Filling an absent column with `pd.NA` and then
coercing is one assignment of the coerced present cells, `NaN` for an
absent column — the same single column write as `toNumericColGet`. -/
def numSan (df : DFrame) (c : String) : DFrame :=
  df.setColWith c (fun r =>
    if df.cols.contains c then (r c).toNumeric else Cell.nan)

/-- Join of the monthly aggregates with the `weighted_info_gain_pct`
column of `monthly_totals` (`.merge(monthly_totals[["month",
"weighted_info_gain_pct"]], on="month", how="left")`). -/
def mergeLeftOnMonth (a b : DFrame) (extra : List String) : DFrame :=
  { cols := a.cols ++ extra
    rows := a.rows.map (fun r =>
      match b.rows.find? (fun s => (s "month").beq (r "month")) with
      | some s => fun c => if extra.contains c ∧ ¬ a.cols.contains c then s c else r c
      | none => fun c => if extra.contains c ∧ ¬ a.cols.contains c then Cell.nan else r c) }

/-- The `compute_info_speed` aggregator (`metrics.py`,
`@register_kpi("data_collection")`): per-row `info_gain_pct =
(fields_after/fields_before - 1) * 100` assigned only where
`fields_before > 0` (other rows keep `NaN`), analogous speed columns,
monthly means/sums, and a `weighted_info_gain_pct` column computed from
the monthly sums `(sum_fields_after / sum_fields_before - 1) * 100` and
merged back on `month`. -/
def compute_info_speed (df : DFrame) : Except PdError DFrame :=
  -- both `groupby("month", ...)` calls aggregate columns created just
  -- above them, so only a missing `month` column can raise
  if !df.cols.contains "month" then .error (.keyError "month")
  else
  let df2 := numSan (numSan (numSan (numSan df "fields_before")
      "fields_after") "time_before_sec") "time_after_sec"
  let df2 := df2.setColWith "info_gain_pct" (fun r =>
    if (r "fields_before").gt0 then
      Cell.mul (Cell.sub (Cell.div (r "fields_after") (r "fields_before"))
        (Cell.int 1)) (Cell.int 100)
    else Cell.nan)
  let df2 := df2.setColWith "fields_added" (fun r =>
    Cell.sub (r "fields_after") (r "fields_before"))
  let df2 := df2.setColWith "speed_impr_pct" (fun r =>
    if (r "time_before_sec").gt0 then
      Cell.mul (Cell.div (Cell.sub (r "time_before_sec") (r "time_after_sec"))
        (r "time_before_sec")) (Cell.int 100)
    else Cell.nan)
  let df2 := df2.setColWith "speed_delta_sec" (fun r =>
    Cell.sub (r "time_after_sec") (r "time_before_sec"))
  let totals := groupbyAggCore df2 "month"
    [⟨"sum_fields_before", "fields_before", Cell.csum⟩,
     ⟨"sum_fields_after", "fields_after", Cell.csum⟩]
  let totals := totals.setColWith "weighted_info_gain_pct" (fun r =>
    Cell.mul (Cell.sub (Cell.div (r "sum_fields_after") (r "sum_fields_before"))
      (Cell.int 1)) (Cell.int 100))
  let out := groupbyAggCore df2 "month"
    [⟨"avg_info_gain_pct", "info_gain_pct", Cell.cmean⟩,
     ⟨"avg_speed_impr_pct", "speed_impr_pct", Cell.cmean⟩,
     ⟨"avg_speed_delta_sec", "speed_delta_sec", Cell.cmean⟩,
     ⟨"total_fields_added", "fields_added", Cell.csum⟩]
  .ok (mergeLeftOnMonth out totals ["weighted_info_gain_pct"])

/-- The `compute_mentoring` aggregator (`metrics.py`,
`@register_kpi("mentoring")`): coerce `mentor_hrs` and
`team_time_saved_hrs` (raising on a missing column), derive the month
from `date`, compute the per-row ratio `roi = team_time_saved_hrs /
mentor_hrs` with plain float division (no zero guard), and aggregate
per month: sums of both hour columns and the mean of `roi`. -/
def compute_mentoring (df : DFrame) : Except PdError DFrame :=
  -- the two `pd.to_numeric(df2[c])` calls and the `df2["date"]` access
  -- raise `KeyError` at the first absent column, in source order
  if !df.cols.contains "mentor_hrs" then .error (.keyError "mentor_hrs")
  else if !df.cols.contains "team_time_saved_hrs" then
    .error (.keyError "team_time_saved_hrs")
  else if !df.cols.contains "date" then .error (.keyError "date")
  else
    let df2 := (df.setColWith "mentor_hrs" (fun r => (r "mentor_hrs").toNumeric)
      ).setColWith "team_time_saved_hrs" (fun r => (r "team_time_saved_hrs").toNumeric)
    let df2 := df2.setColWith "month" (fun r => month_str (r "date"))
    let df2 := df2.setColWith "roi" (fun r =>
      Cell.div (r "team_time_saved_hrs") (r "mentor_hrs"))
    df2.groupbyAgg "month"
      [⟨"mentor_hrs_sum", "mentor_hrs", Cell.csum⟩,
       ⟨"team_saved_sum", "team_time_saved_hrs", Cell.csum⟩,
       ⟨"avg_roi", "roi", Cell.cmean⟩]

/-- The `compute_ai_engagement` aggregator (`metrics.py`,
`@register_kpi("ai_engagement")`). -/
def compute_ai_engagement (df : DFrame) : Except PdError DFrame :=
  let df2 := ((df.toNumericColIfPresent "active_users").toNumericColIfPresent
      "ai_calls").toNumericColIfPresent "survey_score"
  df2.groupbyAgg "month"
    [⟨"total_active_users", "active_users", Cell.csum⟩,
     ⟨"total_ai_calls", "ai_calls", Cell.csum⟩,
     ⟨"avg_survey", "survey_score", Cell.cmean⟩]

/-- Datetime coercion of a whole column, raising on a missing column
(`df2[c] = pd.to_datetime(df2[c], errors="coerce")`). -/
def DFrame.toDatetimeCol (df : DFrame) (c : String) : Except PdError DFrame :=
  if df.cols.contains c then .ok (df.setColWith c (fun r => (r c).toDatetime))
  else .error (.keyError c)

/-- The `compute_project_mgmt` aggregator (`metrics.py`,
`@register_kpi("project_mgmt")`): row-per-project annotation with
`mvp_cycle_days = (mvp_actual_date - start_date).dt.days`, `on_time =
int(notna(mvp_actual_date) and mvp_actual_date <= mvp_target_date)`
(`0` when either date is missing, matching the always-false `NaT`
comparison), and a delivery `month` (`NaT` when undelivered). -/
def compute_project_mgmt (df : DFrame) : Except PdError DFrame := do
  let df2 ← df.toDatetimeCol "start_date"
  let df2 ← df2.toDatetimeCol "mvp_target_date"
  let df2 ← df2.toDatetimeCol "mvp_actual_date"
  let df2 := df2.setColWith "mvp_cycle_days" (fun r =>
    match r "mvp_actual_date", r "start_date" with
    | Cell.date a, Cell.date s => Cell.int (a.ord - s.ord)
    | _, _ => Cell.nan)
  let df2 := df2.setColWith "on_time" (fun r =>
    match r "mvp_actual_date", r "mvp_target_date" with
    | Cell.date a, Cell.date t => Cell.int (if a.ord ≤ t.ord then 1 else 0)
    | _, _ => Cell.int 0)
  let df2 := df2.setColWith "month" (fun r =>
    match r "mvp_actual_date" with
    | Cell.date a => Cell.date ⟨a.y, a.m, 1⟩
    | _ => Cell.nan)
  .ok df2

/-- The `compute_tickets` aggregator (`metrics.py`,
`@register_kpi("tickets")`): a single-row frame holding the row count
(`pd.DataFrame({"total_tickets_resolved": [len(df)]})`) — one row even
for an empty input. -/
def compute_tickets (df : DFrame) : Except PdError DFrame :=
  .ok { cols := ["total_tickets_resolved"]
        rows := [fun c => if c = "total_tickets_resolved"
                  then Cell.int (df.rows.length : ℤ) else Cell.nan] }

/-- The `compute_issues` aggregator (`metrics.py`,
`@register_kpi("issues")`): derive `month` from `date_closed` when that
column exists, then `groupby(["month", "type"]).size()` pivoted to one
column per `type` value (`unstack(fill_value=0).reset_index()`).
Raises `KeyError` when `month` (underivable) or `type` is absent. -/
def compute_issues (df : DFrame) : Except PdError DFrame :=
  let df2 := if df.cols.contains "date_closed" then
      df.setColWith "month" (fun r => month_str (r "date_closed"))
    else df
  if !df2.cols.contains "month" then .error (.keyError "month")
  else if !df2.cols.contains "type" then .error (.keyError "type")
  else
    let rows' := df2.rows.filter (fun r => !(r "month").isNan && !(r "type").isNan)
    let months := firstDedup (rows'.map (fun r => r "month"))
    let types := rows'.map (fun r => r "type")
    let typeLabels := (firstDedup types).map (fun t =>
      match t with | Cell.str s => s | _ => "")
    .ok { cols := "month" :: typeLabels
          rows := months.map (fun mo => fun c =>
            if c = "month" then mo
            else if typeLabels.contains c then
              Cell.int (((rows'.filter (fun r =>
                (r "month").beq mo && (r "type").beq (Cell.str c))).length : ℤ))
            else Cell.nan) }

/-- The `compute_learning` aggregator (`metrics.py`,
`@register_kpi("learning")`): coerce the numeric columns that are
present, derive the month from `date`, compute `efficiency =
applied_hrs / learning_hrs` with plain float division (no zero guard,
so a zero `learning_hrs` yields an infinite or `NaN` efficiency), and
aggregate per month the means of `efficiency` and
`profit_over_legacy_pct`.  No `roi_time`/`time_saved_hrs` figure is
computed. -/
def compute_learning (df : DFrame) : Except PdError DFrame :=
  -- `df2["month"] = ...df2["date"]...` then `df2["applied_hrs"] /
  -- df2["learning_hrs"]` raise `KeyError` at the first absent column,
  -- in source order
  if !df.cols.contains "date" then .error (.keyError "date")
  else if !df.cols.contains "applied_hrs" then .error (.keyError "applied_hrs")
  else if !df.cols.contains "learning_hrs" then .error (.keyError "learning_hrs")
  else
    let df2 := ((((df.toNumericColIfPresent "implementations").toNumericColIfPresent
        "usages").toNumericColIfPresent "learning_hrs").toNumericColIfPresent
        "applied_hrs").toNumericColIfPresent "profit_over_legacy_pct"
    let df2 := df2.setColWith "month" (fun r => month_str (r "date"))
    let df2 := df2.setColWith "efficiency" (fun r =>
      Cell.div (r "applied_hrs") (r "learning_hrs"))
    df2.groupbyAgg "month"
      [⟨"avg_efficiency", "efficiency", Cell.cmean⟩,
       ⟨"avg_profit_over_legacy_pct", "profit_over_legacy_pct", Cell.cmean⟩]

/-- The category columns of `compute_time_mgmt`. -/
def tmCats : List String :=
  ["development", "debugging_tickets", "mentoring", "devops",
   "project_management", "meetings"]

/-- The `compute_time_mgmt` aggregator (`metrics.py`,
`@register_kpi("time_mgmt")`): parse `week_start` unless already
datetime-typed, coerce the six category columns via `df.get`, derive
`total_hours` as the row-wise category sum, and set each percentage
column to `(category / total_hours * 100).where(total_hours > 0)` —
missing (`NaN`), not `0`, where the guard fails.  The final projection
`df2[out_cols]` raises `KeyError` when `week_start` or `kw` is
absent. -/
def compute_time_mgmt (df : DFrame) : Except PdError DFrame :=
  let wsIsDatetime : Bool :=
    !df.hasCol "week_start" ||
      (df.rows.all (fun r => (r "week_start").isDateLike))
  let df2 := if wsIsDatetime then df
    else df.setColWith "week_start" (fun r => (r "week_start").toDatetime)
  let df2 := tmCats.foldl (fun d c => d.toNumericColGet c) df2
  let df2 := df2.setColWith "total_hours" (fun r =>
    Cell.csum (tmCats.map (fun c => r c)))
  let df2 := tmCats.foldl (fun d c =>
    d.setColWith (c ++ "_pct") (fun r =>
      if (r "total_hours").gt0 then
        Cell.mul (Cell.div (r c) (r "total_hours")) (Cell.int 100)
      else Cell.nan)) df2
  let outCols := ["week_start", "kw", "total_hours"] ++ tmCats ++
    tmCats.map (fun c => c ++ "_pct")
  -- `sort_values("week_start")` only reorders rows; every statement
  -- below quantifies over row membership, which a permutation
  -- preserves, so the reordering is modelled as the identity.
  df2.select outCols

/-- The KPI registry `KPI_FUNCTIONS`, in registration order
(`metrics.py` top to bottom). -/
def KPI_FUNCTIONS : List (String × (DFrame → Except PdError DFrame)) :=
  [("apps", compute_apps),
   ("data_collection", compute_info_speed),
   ("mentoring", compute_mentoring),
   ("ai_engagement", compute_ai_engagement),
   ("project_mgmt", compute_project_mgmt),
   ("tickets", compute_tickets),
   ("issues", compute_issues),
   ("learning", compute_learning),
   ("time_mgmt", compute_time_mgmt)]

/-- `list_kpis()`: the registered indicator names. -/
def list_kpis : List String := KPI_FUNCTIONS.map (fun p => p.1)

/-- `compute_kpi(name, df)`: dispatch to the registered function, or
raise `KeyError(f"Unknown KPI '{name}'. Available: ...")` carrying the
requested name and the full list of registered names. -/
def compute_kpi (name : String) (df : DFrame) : Except PdError DFrame :=
  match KPI_FUNCTIONS.lookup name with
  | some f => f df
  | none => .error (.unknownKpi name list_kpis)

/-!
Caller-level computations from `app.py` that the claims reference: the
mentoring headline ROI and per-department grouping, and the worklog
daily zero-fill with its 7-point trailing moving average.
-/

/-- The mentoring headline ROI (`app.py`, flag-card section): over the
date-filtered mentoring rows, `roi = (Σ team_time_saved_hrs) /
(Σ mentor_hrs) if Σ mentor_hrs > 0 else 0.0` — a sum-then-divide
ratio, never an average of per-row ratios. -/
def mentoring_headline_roi (m : DFrame) : Cell :=
  let mentorSum := Cell.csum (m.rows.map (fun r => (r "mentor_hrs").toNumeric))
  let savedSum := Cell.csum (m.rows.map (fun r => (r "team_time_saved_hrs").toNumeric))
  if mentorSum.gt0 then Cell.div savedSum mentorSum else Cell.int 0

/-- The per-department mentoring breakdown (`app.py`, mentoring details
section): coerce the two hour columns, then
`groupby("dept").agg(mentor_hrs=sum, team_saved=sum)` — the group
exposes the summed hours, from which the displayed ROI is the ratio of
the sums. -/
def per_dept (m : DFrame) : Except PdError DFrame :=
  -- the two `pd.to_numeric(m[c])` calls raise `KeyError` at the first
  -- absent hour column, in source order
  if !m.cols.contains "mentor_hrs" then .error (.keyError "mentor_hrs")
  else if !m.cols.contains "team_time_saved_hrs" then
    .error (.keyError "team_time_saved_hrs")
  else
    let m2 := (m.setColWith "mentor_hrs" (fun r => (r "mentor_hrs").toNumeric)
      ).setColWith "team_time_saved_hrs" (fun r => (r "team_time_saved_hrs").toNumeric)
    m2.groupbyAgg "dept"
      [⟨"mentor_hrs", "mentor_hrs", Cell.csum⟩,
       ⟨"team_saved", "team_time_saved_hrs", Cell.csum⟩]

/-- Consecutive calendar days of `[s, e]`, by day ordinal
(`pd.date_range(start, end, freq="D")`; empty when `e < s`). -/
def dateRangeDays (s e : ℤ) : List ℤ :=
  (List.range (e - s + 1).toNat).map (fun i : ℕ => s + (i : ℤ))

/-- The `zero_fill_days` helper (`app.py`): reindex a day-keyed series
over every calendar day of the range and `fillna(0)` — a day carried
by the input keeps its value, every other day reads `0`. -/
def zero_fill_days (pairs : List (ℤ × Cell)) (s e : ℤ) : List (ℤ × Cell) :=
  (dateRangeDays s e).map (fun d =>
    (d, match pairs.find? (fun p => p.1 == d) with
        | some p => if p.2.isNan then Cell.int 0 else p.2
        | none => Cell.int 0))

/-- Distinct elements of a list of day ordinals, first occurrence
first. -/
def firstDedupInt : List ℤ → List ℤ
  | [] => []
  | x :: xs => x :: (firstDedupInt xs).filter (fun y => !(y == x))

/-- The `daily_counts` series (`app.py`, worklog details):
`groupby(day).size()` over the closure days of the filtered worklog
rows — one entry per distinct day, carrying the number of rows closed
on that day. -/
def daily_counts (days : List ℤ) : List (ℤ × Cell) :=
  (firstDedupInt days).map (fun d =>
    (d, Cell.int ((days.filter (fun x => x == d)).length : ℤ)))

/-- The trailing 7-point moving average
(`rolling(7, min_periods=1).mean()`): entry `i` is the mean of the up
to seven values ending at `i`. -/
def rolling_mean7 (xs : List Cell) : List Cell :=
  (List.range xs.length).map (fun i =>
    Cell.cmean ((xs.take (i + 1)).drop (i + 1 - 7)))

/-- Error projection of an `Except`-valued DataFrame computation. -/
def resErr (e : Except PdError DFrame) : Option PdError :=
  match e with
  | .ok _ => none
  | .error p => some p

/-- A concrete row from an association list of cells. -/
def mkRow (l : List (String × Cell)) : Row := fun c => ((l.lookup c).getD Cell.nan)

/-!
Concrete datasets used by the claim theorems: for each indicator, a
zero-row frame carrying its declared input columns, plus the specific
inputs named by the claims.
-/

/-- Zero-row `apps.csv` frame with the declared columns. -/
def appsEmptyDF : DFrame :=
  { cols := ["app_id", "app_name", "app_type", "idea_date", "deploy_date", "month",
             "time_before_hrs", "time_after_hrs", "frequency_per_month"]
    rows := [] }

/-- Zero-row `data_collection.csv` frame with the declared columns. -/
def dataCollectionEmptyDF : DFrame :=
  { cols := ["proc_id", "proc_name", "month", "fields_before", "fields_after",
             "time_before_sec", "time_after_sec"]
    rows := [] }

/-- Zero-row `mentoring.csv` frame with the declared columns. -/
def mentoringEmptyDF : DFrame :=
  { cols := ["session_id", "date", "dept", "mentoring_type", "mentor_hrs",
             "team_time_saved_hrs"]
    rows := [] }

/-- Zero-row `ai_engagement.csv` frame with the declared columns. -/
def aiEngagementEmptyDF : DFrame :=
  { cols := ["month", "dept", "active_users", "ai_calls", "survey_score"]
    rows := [] }

/-- Zero-row `project_mgmt.csv` frame with the declared columns. -/
def projectMgmtEmptyDF : DFrame :=
  { cols := ["project_name", "dept", "start_date", "mvp_target_date", "mvp_actual_date"]
    rows := [] }

/-- Zero-row `tickets.csv` frame with the declared columns. -/
def ticketsEmptyDF : DFrame :=
  { cols := ["ticket_id", "date_closed", "closed_successfully"], rows := [] }

/-- Zero-row `issues.csv` frame with the declared columns. -/
def issuesEmptyDF : DFrame :=
  { cols := ["issue_id", "date_closed", "type"], rows := [] }

/-- Zero-row `learning.csv` frame with the declared columns
(per the `compute_learning` docstring schema). -/
def learningEmptyDF : DFrame :=
  { cols := ["date", "skill", "implementations", "usages", "learning_hrs",
             "applied_hrs", "profit_over_legacy_pct"]
    rows := [] }

/-- Zero-row `time_mgmt.csv` frame with the declared columns
(per the `compute_time_mgmt` docstring schema). -/
def timeMgmtEmptyDF : DFrame :=
  { cols := ["week_start", "kw", "development", "debugging_tickets", "mentoring",
             "devops", "project_management", "meetings"]
    rows := [] }

/-- A time-management frame with one week whose six category hours are
all `0`, so `total_hours = 0`. -/
def timeMgmtZeroDF : DFrame :=
  { cols := ["week_start", "kw", "development", "debugging_tickets", "mentoring",
             "devops", "project_management", "meetings"]
    rows := [mkRow [("week_start", Cell.date ⟨2025, 6, 2⟩), ("kw", Cell.str "KW23"),
      ("development", Cell.int 0), ("debugging_tickets", Cell.int 0),
      ("mentoring", Cell.int 0), ("devops", Cell.int 0),
      ("project_management", Cell.int 0), ("meetings", Cell.int 0)]] }

/-- The data-collection input named by the claim: one month with
`fields_before = [50, 100]` and `fields_after = [100, 150]`. -/
def infoGainDF : DFrame :=
  { cols := ["proc_id", "proc_name", "month", "fields_before", "fields_after",
             "time_before_sec", "time_after_sec"]
    rows := [mkRow [("proc_id", Cell.int 1), ("month", Cell.str "2025-06"),
               ("fields_before", Cell.int 50), ("fields_after", Cell.int 100)],
             mkRow [("proc_id", Cell.int 2), ("month", Cell.str "2025-06"),
               ("fields_before", Cell.int 100), ("fields_after", Cell.int 150)]] }

/-- The mentoring input named by the department-ROI claim: one
department `A` with rows `(mentor_hrs = 1, saved = 10)` and
`(mentor_hrs = 9, saved = 9)`. -/
def mentoringDeptDF : DFrame :=
  { cols := ["session_id", "date", "dept", "mentoring_type", "mentor_hrs",
             "team_time_saved_hrs"]
    rows := [mkRow [("session_id", Cell.int 1), ("date", Cell.date ⟨2025, 6, 10⟩),
               ("dept", Cell.str "A"), ("mentoring_type", Cell.str "prompt_eng"),
               ("mentor_hrs", Cell.int 1), ("team_time_saved_hrs", Cell.int 10)],
             mkRow [("session_id", Cell.int 2), ("date", Cell.date ⟨2025, 6, 12⟩),
               ("dept", Cell.str "A"), ("mentoring_type", Cell.str "prompt_eng"),
               ("mentor_hrs", Cell.int 9), ("team_time_saved_hrs", Cell.int 9)]] }

/-- A learning input with a zero-`learning_hrs` row
(`learning_hrs = 0`, `applied_hrs = 4`). -/
def learningZeroDF : DFrame :=
  { cols := ["date", "skill", "implementations", "usages", "learning_hrs",
             "applied_hrs", "profit_over_legacy_pct"]
    rows := [mkRow [("date", Cell.date ⟨2025, 6, 1⟩), ("skill", Cell.str "lean"),
               ("implementations", Cell.int 1), ("usages", Cell.int 2),
               ("learning_hrs", Cell.int 0), ("applied_hrs", Cell.int 4),
               ("profit_over_legacy_pct", Cell.int 10)]] }

/-- A mentoring input with one month containing a `mentor_hrs = 0` row
with positive saved hours, next to an ordinary row. -/
def mentoringZeroDF : DFrame :=
  { cols := ["session_id", "date", "dept", "mentoring_type", "mentor_hrs",
             "team_time_saved_hrs"]
    rows := [mkRow [("session_id", Cell.int 1), ("date", Cell.date ⟨2025, 6, 1⟩),
               ("dept", Cell.str "RM"), ("mentoring_type", Cell.str "prompt_eng"),
               ("mentor_hrs", Cell.int 0), ("team_time_saved_hrs", Cell.int 5)],
             mkRow [("session_id", Cell.int 2), ("date", Cell.date ⟨2025, 6, 2⟩),
               ("dept", Cell.str "RM"), ("mentoring_type", Cell.str "prompt_eng"),
               ("mentor_hrs", Cell.int 2), ("team_time_saved_hrs", Cell.int 4)]] }

/-- An apps frame whose temporal anchor column `month` is absent. -/
def appsNoMonthDF : DFrame :=
  { cols := ["app_id", "app_name", "app_type", "idea_date", "deploy_date",
             "time_before_hrs", "time_after_hrs", "frequency_per_month"]
    rows := [mkRow [("app_id", Cell.int 1), ("time_before_hrs", Cell.int 10),
               ("time_after_hrs", Cell.int 2), ("frequency_per_month", Cell.int 20)]] }

/-- A mentoring frame whose temporal anchor column `date` is absent. -/
def mentoringNoDateDF : DFrame :=
  { cols := ["session_id", "dept", "mentoring_type", "mentor_hrs",
             "team_time_saved_hrs"]
    rows := [mkRow [("session_id", Cell.int 1), ("dept", Cell.str "RM"),
               ("mentoring_type", Cell.str "prompt_eng"),
               ("mentor_hrs", Cell.int 2), ("team_time_saved_hrs", Cell.int 4)]] }

/-!
Claim theorems.
-/

/-- C1 (counterexample): the claim says every registered indicator
returns a *zero-row* result on a zero-row dataset, but the registered
indicator `tickets` returns a one-row result (holding the count `0`)
when dispatched on the zero-row tickets dataset. -/
theorem c1_counterexample :
    (resRows (compute_kpi "tickets" ticketsEmptyDF)).length = 1 ∧
    rowCellAt (resRows (compute_kpi "tickets" ticketsEmptyDF)) 0
      "total_tickets_resolved" = Cell.int 0 := by
  decide

/-- C1 (amended): dispatching every registered indicator on a zero-row
dataset carrying its declared input columns succeeds (never raises) and
returns a result with the indicator's declared output columns; the
result has zero rows for every indicator except `tickets`, which
returns exactly one row whose `total_tickets_resolved` is `0`. -/
theorem c1_empty_input_amended :
    (isOk (compute_kpi "apps" appsEmptyDF) = true ∧
      (resRows (compute_kpi "apps" appsEmptyDF)).length = 0 ∧
      resCols (compute_kpi "apps" appsEmptyDF) = ["month", "total_saved"]) ∧
    (isOk (compute_kpi "data_collection" dataCollectionEmptyDF) = true ∧
      (resRows (compute_kpi "data_collection" dataCollectionEmptyDF)).length = 0 ∧
      resCols (compute_kpi "data_collection" dataCollectionEmptyDF) =
        ["month", "avg_info_gain_pct", "avg_speed_impr_pct", "avg_speed_delta_sec",
         "total_fields_added", "weighted_info_gain_pct"]) ∧
    (isOk (compute_kpi "mentoring" mentoringEmptyDF) = true ∧
      (resRows (compute_kpi "mentoring" mentoringEmptyDF)).length = 0 ∧
      resCols (compute_kpi "mentoring" mentoringEmptyDF) =
        ["month", "mentor_hrs_sum", "team_saved_sum", "avg_roi"]) ∧
    (isOk (compute_kpi "ai_engagement" aiEngagementEmptyDF) = true ∧
      (resRows (compute_kpi "ai_engagement" aiEngagementEmptyDF)).length = 0 ∧
      resCols (compute_kpi "ai_engagement" aiEngagementEmptyDF) =
        ["month", "total_active_users", "total_ai_calls", "avg_survey"]) ∧
    (isOk (compute_kpi "project_mgmt" projectMgmtEmptyDF) = true ∧
      (resRows (compute_kpi "project_mgmt" projectMgmtEmptyDF)).length = 0 ∧
      resCols (compute_kpi "project_mgmt" projectMgmtEmptyDF) =
        ["project_name", "dept", "start_date", "mvp_target_date", "mvp_actual_date",
         "mvp_cycle_days", "on_time", "month"]) ∧
    (isOk (compute_kpi "tickets" ticketsEmptyDF) = true ∧
      (resRows (compute_kpi "tickets" ticketsEmptyDF)).length = 1 ∧
      resCols (compute_kpi "tickets" ticketsEmptyDF) = ["total_tickets_resolved"]) ∧
    (isOk (compute_kpi "issues" issuesEmptyDF) = true ∧
      (resRows (compute_kpi "issues" issuesEmptyDF)).length = 0 ∧
      resCols (compute_kpi "issues" issuesEmptyDF) = ["month"]) ∧
    (isOk (compute_kpi "learning" learningEmptyDF) = true ∧
      (resRows (compute_kpi "learning" learningEmptyDF)).length = 0 ∧
      resCols (compute_kpi "learning" learningEmptyDF) =
        ["month", "avg_efficiency", "avg_profit_over_legacy_pct"]) ∧
    (isOk (compute_kpi "time_mgmt" timeMgmtEmptyDF) = true ∧
      (resRows (compute_kpi "time_mgmt" timeMgmtEmptyDF)).length = 0 ∧
      resCols (compute_kpi "time_mgmt" timeMgmtEmptyDF) =
        ["week_start", "kw", "total_hours", "development", "debugging_tickets",
         "mentoring", "devops", "project_management", "meetings", "development_pct",
         "debugging_tickets_pct", "mentoring_pct", "devops_pct",
         "project_management_pct", "meetings_pct"]) := by
  decide

/-- C2 (counterexample): the claim says a category percentage is
exactly `0` when `total_hours = 0`, but on a week whose category hours
are all zero the aggregator computes `total_hours = 0` and a *missing*
(`NaN`) development percentage, which is not the numeric `0`. -/
theorem c2_counterexample :
    isOk (compute_time_mgmt timeMgmtZeroDF) = true ∧
    rowCellAt (resRows (compute_time_mgmt timeMgmtZeroDF)) 0 "total_hours"
      = Cell.int 0 ∧
    rowCellAt (resRows (compute_time_mgmt timeMgmtZeroDF)) 0 "development_pct"
      = Cell.nan ∧
    Cell.nan ≠ Cell.int 0 := by
  decide

/-- C5 (code defect): `compute_learning` divides `applied_hrs` by
`learning_hrs` with no zero guard, so the row `learning_hrs = 0,
applied_hrs = 4` produces an *infinite* efficiency (never `0`), and the
aggregator's output has no `roi_time`/`avg_roi_time` column at all —
while its caller in `app.py` reads `avg_roi_time` (and
`time_saved_sum`, …) from this very output. -/
theorem c5_learning_no_guard :
    isOk (compute_learning learningZeroDF) = true ∧
    rowCellAt (resRows (compute_learning learningZeroDF)) 0 "avg_efficiency"
      = Cell.pinf ∧
    resCols (compute_learning learningZeroDF) =
      ["month", "avg_efficiency", "avg_profit_over_legacy_pct"] ∧
    (resCols (compute_learning learningZeroDF)).contains "avg_roi_time" = false ∧
    (resCols (compute_learning learningZeroDF)).contains "roi_time" = false ∧
    Cell.pinf ≠ Cell.int 0 := by
  decide

/-- C6 (counterexample): the claim says a `mentor_hrs = 0` row is
excluded from the monthly mean ROI, but on a month holding the rows
`(mentor_hrs = 0, saved = 5)` and `(mentor_hrs = 2, saved = 4)` the row
ratio `5 / 0` is `+inf`, it is *included* in the mean, and `avg_roi`
is `+inf` rather than the exclusion mean `2`. -/
theorem c6_counterexample :
    isOk (compute_mentoring mentoringZeroDF) = true ∧
    rowCellAt (resRows (compute_mentoring mentoringZeroDF)) 0 "month"
      = Cell.str "2025-06" ∧
    rowCellAt (resRows (compute_mentoring mentoringZeroDF)) 0 "avg_roi"
      = Cell.pinf ∧
    rowCellAt (resRows (compute_mentoring mentoringZeroDF)) 0 "mentor_hrs_sum"
      = Cell.int 2 ∧
    rowCellAt (resRows (compute_mentoring mentoringZeroDF)) 0 "team_saved_sum"
      = Cell.int 9 ∧
    Cell.pinf ≠ Cell.int 2 := by
  decide

/-- C7 (counterexample): the claim says an aggregator returns an empty
zero-row result when the temporal anchor column is absent, but
`compute_apps` without a `month` column and `compute_mentoring` without
a `date` column both raise `KeyError` naming the missing column. -/
theorem c7_counterexample :
    resErr (compute_apps appsNoMonthDF) = some (.keyError "month") ∧
    resErr (compute_mentoring mentoringNoDateDF) = some (.keyError "date") ∧
    isOk (compute_apps appsNoMonthDF) = false ∧
    isOk (compute_mentoring mentoringNoDateDF) = false := by
  decide

/-!
Helper lemmas about the embedded pandas fragment, used by the
general claim theorems below.
-/

/-- Commutativity of lawful boolean equality. -/
theorem lawful_beq_comm {α : Type} [BEq α] [LawfulBEq α] (x y : α) :
    (x == y) = (y == x) := by
  by_cases h : x = y
  · subst h; rfl
  · have h1 : (x == y) = false := beq_eq_false_iff_ne.mpr h
    have h2 : (y == x) = false := beq_eq_false_iff_ne.mpr (Ne.symm h)
    rw [h1, h2]

/-- Rows of a column assignment, as a map over the input rows. -/
theorem setColWith_rows (df : DFrame) (c : String) (f : Row → Cell) :
    (df.setColWith c f).rows
      = df.rows.map (fun r => fun c' => if c' = c then f r else r c') := rfl

/-- Columns of a column assignment. -/
theorem setColWith_cols (df : DFrame) (c : String) (f : Row → Cell) :
    (df.setColWith c f).cols = addCol df.cols c := rfl

/-- Membership in a column list extended by an append. -/
theorem contains_append_singleton (l : List String) (c c' : String) :
    (l ++ [c]).contains c' = (l.contains c' || (c' == c)) := by
  induction l with
  | nil =>
      simp only [List.nil_append, List.contains, List.elem]
      cases c' == c <;> rfl
  | cons a t ih =>
      simp only [List.cons_append, List.contains] at *
      by_cases h : (c' == a) = true
      · simp [List.elem, h]
      · simp only [Bool.not_eq_true] at h
        simp [List.elem, h] at ih ⊢
        exact ih

/-- Membership in a column list after a column assignment. -/
theorem contains_addCol (cols : List String) (c c' : String) :
    (addCol cols c).contains c' = (cols.contains c' || (c' == c)) := by
  unfold addCol
  by_cases h : cols.contains c = true
  · rw [if_pos h]
    by_cases h' : c' = c
    · subst h'
      simp only [beq_self_eq_true, Bool.or_true]
      exact h
    · have hb : (c' == c) = false := beq_eq_false_iff_ne.mpr h'
      simp [hb]
  · rw [if_neg h]
    exact contains_append_singleton cols c c'

/-- Cell equality is reflexive. -/
theorem cell_beq_refl (a : Cell) : a.beq a = true := by
  cases a <;> simp [Cell.beq, Q.beq]

/-- Cell equality is symmetric. -/
theorem cell_beq_symm (a b : Cell) : a.beq b = b.beq a := by
  cases a <;> cases b <;> simp only [Cell.beq, Q.beq] <;>
    first
      | rfl
      | exact lawful_beq_comm ..

/-- The missing marker never equals a non-missing cell. -/
theorem nan_beq_eq_false (k : Cell) (h : k.isNan = false) :
    Cell.nan.beq k = false := by
  cases k <;> simp_all [Cell.beq, Cell.isNan]

/-- A derived month key is always a string, never the missing
marker. -/
theorem month_str_isNan (c : Cell) : (month_str c).isNan = false := by
  cases c <;> simp [month_str, Cell.toDatetime, Cell.isNan]

/-- Filtering after a map is mapping after filtering the composed
predicate. -/
theorem filter_map_comm {α β : Type} (f : α → β) (p : β → Bool) (l : List α) :
    (l.map f).filter p = (l.filter (fun a => p (f a))).map f := by
  induction l with
  | nil => rfl
  | cons a t ih =>
      simp only [List.map_cons, List.filter_cons]
      by_cases h : p (f a) = true
      · simp [h, ih]
      · simp only [Bool.not_eq_true] at h
        simp [h, ih]

/-- A filter that cannot drop any match leaves `find?` unchanged. -/
theorem find?_filter_of_imp {α : Type} (L : List α) (p q : α → Bool)
    (h : ∀ a, p a = true → q a = true) :
    (L.filter q).find? p = L.find? p := by
  induction L with
  | nil => rfl
  | cons a t ih =>
      by_cases hq : q a = true
      · by_cases hp : p a = true
        · simp [List.filter_cons, hq, List.find?, hp]
        · simp only [Bool.not_eq_true] at hp
          simp [List.filter_cons, hq, List.find?, hp, ih]
      · have hp : p a = false := by
          by_contra hc
          simp only [Bool.not_eq_false] at hc
          exact hq (h a hc)
        simp only [Bool.not_eq_true] at hq
        simp [List.filter_cons, hq, List.find?, hp, ih]

/-- The distinct group keys are pairwise unequal. -/
theorem firstDedup_pairwise (l : List Cell) :
    (firstDedup l).Pairwise (fun a b => a.beq b = false) := by
  induction l with
  | nil => exact List.Pairwise.nil
  | cons x xs ih =>
      refine List.Pairwise.cons ?_ (List.Pairwise.filter _ ih)
      intro b hb
      have hmem := List.of_mem_filter hb
      simp only [Bool.not_eq_true'] at hmem
      rw [cell_beq_symm]
      exact hmem

/-- The head of a non-empty list, via `getD`, is a member. -/
theorem getD_zero_mem {α : Type} (l : List α) (d : α) (h : 0 < l.length) :
    l.getD 0 d ∈ l := by
  cases l with
  | nil => simp at h
  | cons a t => simp [List.getD]

/-- Membership in a column list after a column assignment, in
propositional form. -/
theorem mem_addCol (cols : List String) (c c' : String) :
    (c' ∈ addCol cols c) ↔ (c' ∈ cols ∨ c' = c) := by
  unfold addCol
  by_cases h : cols.contains c = true
  · rw [if_pos h]
    constructor
    · exact Or.inl
    · rintro (hm | rfl)
      · exact hm
      · simpa using h
  · rw [if_neg h]
    simp [List.mem_append]

/-- Looking a day up in a keyed series built over the distinct days:
the day's entry when the day occurs, nothing otherwise. -/
theorem find?_map_firstDedupInt (l : List ℤ) (f : ℤ → ℤ × Cell)
    (hf : ∀ x, (f x).1 = x) (d : ℤ) :
    ((firstDedupInt l).map f).find? (fun p => p.1 == d)
      = if d ∈ l then some (f d) else none := by
  induction l with
  | nil => simp [firstDedupInt]
  | cons x xs ih =>
      simp only [firstDedupInt, List.map_cons, List.find?]
      by_cases hxd : x = d
      · subst hxd
        simp [hf]
      · have hc : ((f x).1 == d) = false := by
          rw [hf]
          exact beq_eq_false_iff_ne.mpr hxd
        rw [hc]
        have hpq : (fun y : ℤ => !(y == x)) = (fun y : ℤ => !((f y).1 == x)) :=
          funext fun y => by rw [hf]
        rw [hpq, ← filter_map_comm f (fun pr => !(pr.1 == x)) (firstDedupInt xs)]
        rw [find?_filter_of_imp]
        · rw [ih]
          simp [List.mem_cons, Ne.symm hxd]
        · intro a ha
          simp only [beq_iff_eq] at ha
          simp [ha, Ne.symm hxd]

/-- C2 (amended): in the time-management aggregator every output row
satisfies, for each category, `pct = category / total_hours × 100` when
`total_hours > 0`, and `pct` is the *missing* value `NaN` — not `0` —
when `total_hours = 0`. -/
theorem c2_time_mgmt_pct_amended :
    ∀ (df : DFrame), ∀ r ∈ resRows (compute_time_mgmt df), ∀ c ∈ tmCats,
      r (c ++ "_pct") = (if (r "total_hours").gt0 then
          Cell.mul (Cell.div (r c) (r "total_hours")) (Cell.int 100)
        else Cell.nan) ∧
      (r "total_hours" = Cell.int 0 → r (c ++ "_pct") = Cell.nan) := by
  intro df r hr c hc
  cases hE : compute_time_mgmt df with
  | error e => rw [hE] at hr; simp [resRows] at hr
  | ok out =>
      rw [hE] at hr
      simp only [resRows] at hr
      simp only [compute_time_mgmt, tmCats, List.foldl] at hE
      rw [DFrame.select] at hE
      split at hE
      · exact Except.noConfusion hE
      · rw [Except.ok.injEq] at hE
        subst hE
        simp only [List.mem_map, setColWith_rows, DFrame.toNumericColGet] at hr
        obtain ⟨r2, hr2, rfl⟩ := hr
        obtain ⟨r3, hr3, rfl⟩ := hr2
        obtain ⟨r4, hr4, rfl⟩ := hr3
        obtain ⟨r5, hr5, rfl⟩ := hr4
        obtain ⟨r6, hr6, rfl⟩ := hr5
        obtain ⟨r7, hr7, rfl⟩ := hr6
        obtain ⟨r8, hr8, rfl⟩ := hr7
        clear hr8
        simp only [tmCats, List.mem_cons, List.not_mem_nil, or_false] at hc
        rcases hc with rfl | rfl | rfl | rfl | rfl | rfl <;>
          · refine ⟨by simp, fun htot => ?_⟩
            simp at htot
            simp [htot, Cell.gt0, Cell.int, Q.int]

/-- C2 (witness): on the all-zero week the development percentage of
the first output row is the missing value. -/
theorem c2_witness :
    rowCellAt (resRows (compute_time_mgmt timeMgmtZeroDF)) 0 "development_pct"
      = Cell.nan := by
  have hmem : (resRows (compute_time_mgmt timeMgmtZeroDF)).getD 0 (fun _ => Cell.nan)
      ∈ resRows (compute_time_mgmt timeMgmtZeroDF) :=
    getD_zero_mem _ _ (by decide)
  have h := (c2_time_mgmt_pct_amended timeMgmtZeroDF _ hmem "development"
    (by decide)).2 (by decide)
  exact h

/-- C7 (amended): when the temporal anchor column is absent the cited
aggregators raise `KeyError` naming it — `compute_apps` for a frame
without `month`, `compute_mentoring` for a frame (carrying its hour
columns) without `date` — instead of returning an empty result. -/
theorem c7_missing_anchor_amended :
    (∀ df : DFrame, "month" ∉ df.cols →
      compute_apps df = .error (.keyError "month")) ∧
    (∀ df : DFrame, "mentor_hrs" ∈ df.cols → "team_time_saved_hrs" ∈ df.cols →
      "date" ∉ df.cols →
      compute_mentoring df = .error (.keyError "date")) := by
  constructor
  · intro df h
    simp [compute_apps, DFrame.groupbyAgg, DFrame.toNumericColGet,
      setColWith_cols, mem_addCol, h]
  · intro df h1 h2 h3
    simp [compute_mentoring, h1, h2, h3]

/-- C7 (witness): the concrete anchor-free frames raise. -/
theorem c7_witness :
    compute_apps appsNoMonthDF = .error (.keyError "month") ∧
    compute_mentoring mentoringNoDateDF = .error (.keyError "date") :=
  ⟨c7_missing_anchor_amended.1 appsNoMonthDF (by decide),
   c7_missing_anchor_amended.2 mentoringNoDateDF (by decide) (by decide) (by decide)⟩

/-- C8: dispatching an unregistered indicator name fails with the
"unknown KPI" error carrying the requested name and the full list of
registered names, and every registered name dispatches to its
registered aggregator function. -/
theorem c8_dispatch :
    (∀ (name : String) (df : DFrame), ¬ name ∈ list_kpis →
      compute_kpi name df = .error (.unknownKpi name list_kpis)) ∧
    (∀ df : DFrame,
      compute_kpi "apps" df = compute_apps df ∧
      compute_kpi "data_collection" df = compute_info_speed df ∧
      compute_kpi "mentoring" df = compute_mentoring df ∧
      compute_kpi "ai_engagement" df = compute_ai_engagement df ∧
      compute_kpi "project_mgmt" df = compute_project_mgmt df ∧
      compute_kpi "tickets" df = compute_tickets df ∧
      compute_kpi "issues" df = compute_issues df ∧
      compute_kpi "learning" df = compute_learning df ∧
      compute_kpi "time_mgmt" df = compute_time_mgmt df) := by
  constructor
  · intro name df h
    simp only [list_kpis, KPI_FUNCTIONS, List.map, List.mem_cons,
      List.not_mem_nil, or_false] at h
    push_neg at h
    obtain ⟨h1, h2, h3, h4, h5, h6, h7, h8, h9⟩ := h
    simp [compute_kpi, KPI_FUNCTIONS, List.lookup, list_kpis,
      beq_eq_false_iff_ne.mpr h1, beq_eq_false_iff_ne.mpr h2,
      beq_eq_false_iff_ne.mpr h3, beq_eq_false_iff_ne.mpr h4,
      beq_eq_false_iff_ne.mpr h5, beq_eq_false_iff_ne.mpr h6,
      beq_eq_false_iff_ne.mpr h7, beq_eq_false_iff_ne.mpr h8,
      beq_eq_false_iff_ne.mpr h9]
  · intro df
    exact ⟨rfl, rfl, rfl, rfl, rfl, rfl, rfl, rfl, rfl⟩

/-- C8 (witness): an unregistered name errors with itself and the
registry's key list; a registered name reaches its function. -/
theorem c8_witness :
    compute_kpi "velocity" appsEmptyDF
        = .error (.unknownKpi "velocity" list_kpis) ∧
    compute_kpi "tickets" ticketsEmptyDF = compute_tickets ticketsEmptyDF :=
  ⟨c8_dispatch.1 "velocity" appsEmptyDF (by decide),
   (c8_dispatch.2 ticketsEmptyDF).2.2.2.2.2.1⟩

/-- C9: the zero-filled daily series has exactly one row per calendar
day of the range; each in-range day carries the number of worklog rows
closed on it (`0` for a day with none); and on the concrete 5-day range
with closures only on day 1 and day 5 the series is `[1, 0, 0, 0, 1]`,
over which the 7-point trailing moving average is computed. -/
theorem c9_zero_fill_daily :
    (∀ (s e : ℤ) (pairs : List (ℤ × Cell)), s ≤ e →
      (zero_fill_days pairs s e).length = (e - s + 1).toNat) ∧
    (∀ (s e d : ℤ) (days : List ℤ), s ≤ d → d ≤ e →
      (d, Cell.int ((days.filter (fun x => x == d)).length : ℤ))
        ∈ zero_fill_days (daily_counts days) s e) ∧
    ((zero_fill_days (daily_counts [1, 5]) 1 5).map (fun p => p.2)
        = [Cell.int 1, Cell.int 0, Cell.int 0, Cell.int 0, Cell.int 1]) ∧
    (rolling_mean7 ((zero_fill_days (daily_counts [1, 5]) 1 5).map (fun p => p.2))
        = [Cell.int 1, Cell.num ⟨1, 2⟩, Cell.num ⟨1, 3⟩, Cell.num ⟨1, 4⟩,
           Cell.num ⟨2, 5⟩]) := by
  refine ⟨?_, ?_, by decide, by decide⟩
  · intro s e pairs _
    unfold zero_fill_days dateRangeDays
    rw [List.length_map, List.length_map, List.length_range]
  · intro s e d days hsd hde
    have h0 : ((d - s).toNat : ℤ) = d - s := Int.toNat_of_nonneg (by omega)
    have hmem : d ∈ dateRangeDays s e := by
      simp only [dateRangeDays, List.mem_map]
      refine ⟨(d - s).toNat, ?_, ?_⟩
      · simp only [List.mem_range]
        omega
      · rw [h0]
        omega
    simp only [zero_fill_days, List.mem_map]
    refine ⟨d, hmem, ?_⟩
    rw [daily_counts, find?_map_firstDedupInt _ _ (fun x => rfl) d]
    by_cases hd : d ∈ days
    · rw [if_pos hd]
      simp [Cell.int, Cell.isNan]
    · have hnil : days.filter (fun x => x == d) = [] := by
        rw [List.filter_eq_nil_iff]
        intro a ha
        simp only [Bool.not_eq_true, beq_eq_false_iff_ne]
        intro heq
        exact hd (heq ▸ ha)
      rw [if_neg hd]
      simp [hnil]

/-- C9 (witness): the 5-day range has 5 rows and the empty day 3
carries count 0. -/
theorem c9_witness :
    (zero_fill_days (daily_counts [1, 5]) 1 5).length = ((5 : ℤ) - 1 + 1).toNat ∧
    ((3 : ℤ), Cell.int ((([1, 5] : List ℤ).filter (fun x => x == (3 : ℤ))).length : ℤ))
      ∈ zero_fill_days (daily_counts [1, 5]) 1 5 :=
  ⟨c9_zero_fill_daily.1 1 5 (daily_counts [1, 5]) (by decide),
   c9_zero_fill_daily.2.1 1 5 3 [1, 5] (by decide) (by decide)⟩

/-- Mapping with pointwise-equal functions gives equal lists. -/
theorem map_congr_of_eq {α β : Type} (l : List α) (f g : α → β)
    (h : ∀ a ∈ l, f a = g a) : l.map f = l.map g := by
  induction l with
  | nil => rfl
  | cons a t ih =>
      simp only [List.map_cons]
      rw [h a (by simp), ih (fun x hx => h x (by simp [hx]))]

set_option maxHeartbeats 2000000 in
/-- C6 (amended): every mentoring bucket exposes the summed mentor
hours and summed team hours saved of its month, and `avg_roi` is the
mean over the per-row ratios `team_time_saved_hrs / mentor_hrs` of the
month; the ratio at `mentor_hrs = 0` is `+inf` for positive saved hours
(and `NaN` only for `0 / 0`), and the mean skips only `NaN` — so a
zero-mentor row with positive saved hours is *included* and makes
`avg_roi` infinite, rather than being excluded. -/
theorem c6_mentoring_roi_amended :
    (∀ (df : DFrame), ∀ r ∈ resRows (compute_mentoring df),
      r "mentor_hrs_sum" = Cell.csum ((df.rows.filter (fun r0 =>
          (month_str (r0 "date")).beq (r "month"))).map
            (fun r0 => (r0 "mentor_hrs").toNumeric)) ∧
      r "team_saved_sum" = Cell.csum ((df.rows.filter (fun r0 =>
          (month_str (r0 "date")).beq (r "month"))).map
            (fun r0 => (r0 "team_time_saved_hrs").toNumeric)) ∧
      r "avg_roi" = Cell.cmean ((df.rows.filter (fun r0 =>
          (month_str (r0 "date")).beq (r "month"))).map
            (fun r0 => Cell.div (r0 "team_time_saved_hrs").toNumeric
              (r0 "mentor_hrs").toNumeric))) ∧
    (∀ q : Q, 0 < q.n → Cell.div (Cell.num q) (Cell.int 0) = Cell.pinf) ∧
    (Cell.div (Cell.int 0) (Cell.int 0) = Cell.nan) ∧
    (∀ l : List Cell, Cell.cmean (Cell.nan :: l) = Cell.cmean l) := by
  refine ⟨?_, ?_, by decide, ?_⟩
  · intro df r hr
    cases hE : compute_mentoring df with
    | error e => rw [hE] at hr; simp [resRows] at hr
    | ok out =>
        rw [hE] at hr
        simp only [resRows] at hr
        simp only [compute_mentoring] at hE
        split at hE
        · exact Except.noConfusion hE
        · split at hE
          · exact Except.noConfusion hE
          · split at hE
            · exact Except.noConfusion hE
            · simp only [DFrame.groupbyAgg, setColWith_cols, contains_addCol] at hE
              simp at hE
              subst hE
              simp only [groupbyAggCore, List.mem_map, setColWith_rows] at hr
              obtain ⟨k, hk, rfl⟩ := hr
              refine ⟨?_, ?_, ?_⟩ <;>
                · simp only [groupbyAggRow, List.find?]
                  simp only [groupRows, dropnaRows, filter_map_comm, List.map_map,
                    List.filter_filter]
                  simp [month_str_isNan]
                  refine congrArg _ (map_congr_of_eq _ _ _ (fun a _ => ?_))
                  simp [Function.comp]
  · intro q hq
    simp [Cell.div, Cell.int, Q.int, hq]
  · intro l
    simp [Cell.cmean, Cell.isNan]

/-- C6 (witness): the month bucket of the concrete zero-mentor dataset
satisfies the mean-over-ratios characterisation, and `5 / 0` is
`+inf`. -/
theorem c6_witness :
    rowCellAt (resRows (compute_mentoring mentoringZeroDF)) 0 "avg_roi"
      = Cell.cmean ((mentoringZeroDF.rows.filter (fun r0 =>
          (month_str (r0 "date")).beq
            (rowCellAt (resRows (compute_mentoring mentoringZeroDF)) 0 "month"))).map
            (fun r0 => Cell.div (r0 "team_time_saved_hrs").toNumeric
              (r0 "mentor_hrs").toNumeric)) ∧
    Cell.div (Cell.num ⟨5, 1⟩) (Cell.int 0) = Cell.pinf := by
  constructor
  · have hmem := getD_zero_mem (resRows (compute_mentoring mentoringZeroDF))
      (fun _ => Cell.nan) (by decide)
    exact (c6_mentoring_roi_amended.1 mentoringZeroDF _ hmem).2.2
  · exact c6_mentoring_roi_amended.2.1 ⟨5, 1⟩ (by decide)

/-- Filtering with pointwise-equal predicates gives equal lists. -/
theorem filter_congr_of_eq {α : Type} (l : List α) (p q : α → Bool)
    (h : ∀ a ∈ l, p a = q a) : l.filter p = l.filter q := by
  induction l with
  | nil => rfl
  | cons a t ih =>
      simp only [List.filter_cons]
      rw [h a (by simp), ih (fun x hx => h x (by simp [hx]))]

/-- A distinct group key occurs in the original key list. -/
theorem mem_of_mem_firstDedup (l : List Cell) (a : Cell)
    (h : a ∈ firstDedup l) : a ∈ l := by
  induction l with
  | nil => simp [firstDedup] at h
  | cons x xs ih =>
      simp only [firstDedup, List.mem_cons] at h
      rcases h with rfl | hm
      · exact List.mem_cons_self a xs
      · exact List.mem_cons_of_mem x (ih (List.mem_of_mem_filter hm))

set_option maxHeartbeats 2000000 in
/-- Every per-department row of the mentoring breakdown carries the
sums of the coerced hour columns over exactly its department's rows. -/
theorem per_dept_group_sums :
    ∀ (m : DFrame), ∀ r ∈ resRows (per_dept m),
      r "mentor_hrs" = Cell.csum ((m.rows.filter (fun r0 =>
          (r0 "dept").beq (r "dept"))).map
            (fun r0 => (r0 "mentor_hrs").toNumeric)) ∧
      r "team_saved" = Cell.csum ((m.rows.filter (fun r0 =>
          (r0 "dept").beq (r "dept"))).map
            (fun r0 => (r0 "team_time_saved_hrs").toNumeric)) := by
  intro m r hr
  cases hE : per_dept m with
  | error e => rw [hE] at hr; simp [resRows] at hr
  | ok out =>
      rw [hE] at hr
      simp only [resRows] at hr
      simp only [per_dept] at hE
      split at hE
      · exact Except.noConfusion hE
      · split at hE
        · exact Except.noConfusion hE
        · simp only [DFrame.groupbyAgg, setColWith_cols, contains_addCol] at hE
          split at hE
          · exact Except.noConfusion hE
          · simp at hE
            subst hE
            simp only [groupbyAggCore, List.mem_map, setColWith_rows] at hr
            obtain ⟨k, hk, rfl⟩ := hr
            have hknan : k.isNan = false := by
              simp only [groupKeys, dropnaRows] at hk
              have hk' := mem_of_mem_firstDedup _ _ hk
              simp only [List.mem_map] at hk'
              obtain ⟨row, hrow, rfl⟩ := hk'
              have := List.of_mem_filter hrow
              simpa using this
            refine ⟨?_, ?_⟩ <;>
              · simp only [groupbyAggRow, List.find?]
                simp only [groupRows, dropnaRows, filter_map_comm, List.map_map,
                  List.filter_filter]
                simp
                rw [filter_congr_of_eq _ _ (fun r0 => (r0 "dept").beq k)
                  (fun a _ => ?_)]
                · refine congrArg _ (map_congr_of_eq _ _ _ (fun a _ => ?_))
                  simp [Function.comp]
                · by_cases hna : (a "dept").isNan
                  · have hv : a "dept" = Cell.nan := by
                      cases hc : a "dept" <;> simp_all [Cell.isNan]
                    simp [hv, nan_beq_eq_false k hknan]
                  · simp [hna]

set_option maxHeartbeats 1000000 in
/-- C4: the per-department mentoring group exposes the summed hours
of its rows, and the ROI computed from a department's rows the way the
headline computes it is the ratio of those sums (`Σsaved / Σmentor`,
`0` when the mentor sum is not positive) — sum-then-divide; on the
concrete department `A` with rows `(1, 10)` and `(9, 9)` the grouped
ROI is `19/10 = 1.9`, not the `11/2 = 5.5` mean of row-level ratios. -/
theorem c4_mentoring_roi_sum_then_divide :
    (∀ (m : DFrame), ∀ r ∈ resRows (per_dept m),
      r "mentor_hrs" = Cell.csum ((m.rows.filter (fun r0 =>
          (r0 "dept").beq (r "dept"))).map
            (fun r0 => (r0 "mentor_hrs").toNumeric)) ∧
      r "team_saved" = Cell.csum ((m.rows.filter (fun r0 =>
          (r0 "dept").beq (r "dept"))).map
            (fun r0 => (r0 "team_time_saved_hrs").toNumeric)) ∧
      mentoring_headline_roi
          ⟨m.cols, m.rows.filter (fun r0 => (r0 "dept").beq (r "dept"))⟩
        = (if (r "mentor_hrs").gt0 then Cell.div (r "team_saved") (r "mentor_hrs")
          else Cell.int 0)) ∧
    ((resRows (per_dept mentoringDeptDF)).length = 1 ∧
      rowCellAt (resRows (per_dept mentoringDeptDF)) 0 "dept" = Cell.str "A" ∧
      rowCellAt (resRows (per_dept mentoringDeptDF)) 0 "mentor_hrs" = Cell.int 10 ∧
      rowCellAt (resRows (per_dept mentoringDeptDF)) 0 "team_saved" = Cell.int 19 ∧
      mentoring_headline_roi mentoringDeptDF = Cell.num ⟨19, 10⟩ ∧
      Cell.cmean [Cell.div (Cell.int 10) (Cell.int 1),
        Cell.div (Cell.int 9) (Cell.int 9)] = Cell.num ⟨11, 2⟩ ∧
      Cell.num ⟨19, 10⟩ ≠ Cell.num ⟨11, 2⟩) := by
  refine ⟨?_, by decide⟩
  intro m r hr
  obtain ⟨h1, h2⟩ := per_dept_group_sums m r hr
  refine ⟨h1, h2, ?_⟩
  rw [h1, h2]
  rfl

/-- C4 (witness): the concrete department-A frame's first group row
carries the mentor-hour sum over its department's rows. -/
theorem c4_witness :
    rowCellAt (resRows (per_dept mentoringDeptDF)) 0 "mentor_hrs"
      = Cell.csum ((mentoringDeptDF.rows.filter (fun r0 =>
          (r0 "dept").beq
            (rowCellAt (resRows (per_dept mentoringDeptDF)) 0 "dept"))).map
          (fun r0 => (r0 "mentor_hrs").toNumeric)) := by
  have hmem := getD_zero_mem (resRows (per_dept mentoringDeptDF))
    (fun _ => Cell.nan) (by decide)
  exact (c4_mentoring_roi_sum_then_divide.1 mentoringDeptDF _ hmem).1

theorem groupbyAggRow_key (rows' : List Row) (key : String) (aggs : List AggSpec)
    (k : Cell) : groupbyAggRow rows' key aggs k key = k := by
  simp [groupbyAggRow]

theorem find?_month_map_of_pairwise (keys : List Cell) (f : Cell → Row)
    (hf : ∀ k, f k "month" = k)
    (hp : keys.Pairwise (fun a b => a.beq b = false))
    (k : Cell) (hk : k ∈ keys) :
    (keys.map f).find? (fun s => (s "month").beq k) = some (f k) := by
  induction keys with
  | nil => simp at hk
  | cons x xs ih =>
      simp only [List.map_cons, List.find?, hf]
      rcases List.mem_cons.mp hk with rfl | hmem
      · simp [cell_beq_refl]
      · have hx : x.beq k = false := (List.pairwise_cons.mp hp).1 k hmem
        simp only [hx]
        exact ih (List.pairwise_cons.mp hp).2 hmem

set_option maxHeartbeats 4000000 in
/-- C3: the data-collection aggregator (compute_info_speed) exposes per month
bucket both a weighted info gain, equal over the month's rows to
(Σ fields_after / Σ fields_before − 1) × 100 computed from the sums, and a
simple mean avg_info_gain_pct of the per-row percentages in which rows with
fields_before ≤ 0 contribute NaN (so they are excluded from the mean);
concretely, for one month with fields_before = [50, 100] and
fields_after = [100, 150], the weighted figure is 200/3 (≈ 66.7) while the
simple mean is 75, and the two differ. -/
theorem c3_info_gain_weighted_vs_mean :
    (∀ (df : DFrame), "fields_before" ∈ df.cols → "fields_after" ∈ df.cols →
      ∀ r ∈ resRows (compute_info_speed df),
      r "weighted_info_gain_pct" = Cell.mul (Cell.sub (Cell.div
          (Cell.csum ((df.rows.filter (fun r0 => (r0 "month").beq (r "month"))).map
            (fun r0 => (r0 "fields_after").toNumeric)))
          (Cell.csum ((df.rows.filter (fun r0 => (r0 "month").beq (r "month"))).map
            (fun r0 => (r0 "fields_before").toNumeric))))
          (Cell.int 1)) (Cell.int 100) ∧
      r "avg_info_gain_pct" = Cell.cmean
          ((df.rows.filter (fun r0 => (r0 "month").beq (r "month"))).map
            (fun r0 =>
              if (r0 "fields_before").toNumeric.gt0 then
                Cell.mul (Cell.sub (Cell.div (r0 "fields_after").toNumeric
                  (r0 "fields_before").toNumeric) (Cell.int 1)) (Cell.int 100)
              else Cell.nan))) ∧
    (rowCellAt (resRows (compute_info_speed infoGainDF)) 0 "avg_info_gain_pct"
        = Cell.num ⟨75, 1⟩ ∧
      rowCellAt (resRows (compute_info_speed infoGainDF)) 0 "weighted_info_gain_pct"
        = Cell.num ⟨200, 3⟩ ∧
      Cell.num ⟨200, 3⟩ ≠ Cell.num ⟨75, 1⟩) := by
  refine ⟨?_, by decide⟩
  intro df hb ha r hr
  cases hE : compute_info_speed df with
  | error e => rw [hE] at hr; simp [resRows] at hr
  | ok out =>
      rw [hE] at hr
      simp only [resRows] at hr
      simp only [compute_info_speed] at hE
      split at hE
      · exact Except.noConfusion hE
      · rw [Except.ok.injEq] at hE
        subst hE
        simp only [mergeLeftOnMonth, List.mem_map] at hr
        obtain ⟨rg, hrg, rfl⟩ := hr
        simp only [groupbyAggCore, List.mem_map] at hrg
        obtain ⟨k, hk, rfl⟩ := hrg
        have hknan : k.isNan = false := by
          have hk2 := hk
          simp only [groupKeys, dropnaRows] at hk2
          have hk' := mem_of_mem_firstDedup _ _ hk2
          simp only [List.mem_map] at hk'
          obtain ⟨row, hrow, rfl⟩ := hk'
          have := List.of_mem_filter hrow
          simpa using this
        have hbB : df.cols.contains "fields_before" = true := by simpa using hb
        have haB : df.cols.contains "fields_after" = true := by simpa using ha
        simp only [groupbyAggRow_key]
        simp only [setColWith_rows, groupbyAggCore, List.map_map] at hk ⊢
        rw [find?_month_map_of_pairwise _ _ ?_ ?_ k hk]
        · refine ⟨?_, ?_⟩ <;>
            · simp only [Function.comp]
              simp only [groupbyAggRow, List.find?]
              simp only [groupRows, dropnaRows, filter_map_comm, List.map_map,
                List.filter_filter]
              simp
              simp only [numSan, setColWith_rows, setColWith_cols, List.map_map,
                filter_map_comm, List.filter_filter]
              rw [filter_congr_of_eq _ _ (fun r0 => (r0 "month").beq k)
                (fun a _ => ?_)]
              · first
                  | (congr 1
                     congr 1
                     congr 1
                     · exact congrArg _ (map_congr_of_eq _ _ _ (fun a _ => by
                         simp [Function.comp, contains_addCol, mem_addCol,
                           ha, hb, haB, hbB]))
                     · exact congrArg _ (map_congr_of_eq _ _ _ (fun a _ => by
                         simp [Function.comp, contains_addCol, mem_addCol,
                           ha, hb, haB, hbB])))
                  | exact congrArg _ (map_congr_of_eq _ _ _ (fun a _ => by
                      simp [Function.comp, contains_addCol, mem_addCol,
                        ha, hb, haB, hbB]))
              · by_cases hna : (a "month").isNan
                · have hv : a "month" = Cell.nan := by
                    cases hc : a "month" <;> simp_all [Cell.isNan]
                  simp [Function.comp, hv, nan_beq_eq_false k hknan]
                · simp [Function.comp, hna]
        · intro k'
          simp [Function.comp, groupbyAggRow_key]
        · exact firstDedup_pairwise _

/-- Witness for C3: on the concrete two-row frame the hypotheses hold and the
weighted figure of the one output row equals the sum-then-divide formula. -/
theorem c3_witness :
    ("fields_before" ∈ infoGainDF.cols) ∧
    rowCellAt (resRows (compute_info_speed infoGainDF)) 0 "weighted_info_gain_pct"
      = Cell.mul (Cell.sub (Cell.div
          (Cell.csum ((infoGainDF.rows.filter (fun r0 => (r0 "month").beq
            (rowCellAt (resRows (compute_info_speed infoGainDF)) 0 "month"))).map
            (fun r0 => (r0 "fields_after").toNumeric)))
          (Cell.csum ((infoGainDF.rows.filter (fun r0 => (r0 "month").beq
            (rowCellAt (resRows (compute_info_speed infoGainDF)) 0 "month"))).map
            (fun r0 => (r0 "fields_before").toNumeric))))
          (Cell.int 1)) (Cell.int 100) := by
  refine ⟨by decide, ?_⟩
  have hmem := getD_zero_mem (resRows (compute_info_speed infoGainDF))
    (fun _ => Cell.nan) (by decide)
  exact (c3_info_gain_weighted_vs_mean.1 infoGainDF (by decide) (by decide)
    _ hmem).1
